import Mathlib

/-!
Shallow embedding of `src/check_reviews.py` (G2 review monitor).

Conventions used throughout:
* Timestamps and parsed dates are `Int` seconds (UTC).  The source compares
  `datetime` values; mapping a calendar date to `86400 * (days since epoch)`
  and a current time to its epoch second count preserves every comparison
  the source performs.
* A fetched review is a JSON object; fields may be absent, so each field is
  an `Option`.  The `review_id` field may hold a non-numeric value, which the
  source treats differently from an absent one, hence `ReviewIdField`.
* Fallible steps return `Option`; `none` is the source's `return None` or an
  exception swallowed before state is written.
-/

namespace G2Monitor

/-- Value found under the `review_id` key of a fetched record: a numeric id
(`int`/`float` in the source, modelled as `Int`), or a value of any other
type (which fails the `isinstance(review_id, (int, float))` check and makes
`max()` raise when mixed with numbers). -/
inductive ReviewIdField
  | num (n : Int)
  | nonNum
deriving DecidableEq, Repr

/-- A fetched review record (a JSON dict in the source).  `none` means the
key is absent.  Fields other than `review_id` and `date` are only ever
tested for presence by the logic modelled here. -/
structure RawReview where
  review_id : Option ReviewIdField
  date : Option String
  title : Option String
  author : Option String
  stars : Option Int
  review_url : Option String
deriving DecidableEq, Repr

/-- The JSON state file written by `save_last_review_id`.  Every file the
program writes carries all four fields. -/
structure PersistedState where
  last_review_id : Int
  seen_review_ids : List Int
  last_checked : Int
  last_notification_sent : Int
deriving DecidableEq, Repr

/-! ### Date parsing (`datetime.strptime(review['date'], '%Y-%m-%d')`)

`strptime` with format `%Y-%m-%d` regex-matches the whole string as
`\d{4}-\d{1,2}-\d{1,2}`, requires month in 1..12 and day in 1..31, and the
`datetime` constructor then validates the day against the month length and
requires year at least 1.  We implement that over the character list of the
string so every step is structural and kernel-reducible. -/

/-- Split a character list on `'-'`, mirroring the separator structure the
`%Y-%m-%d` pattern imposes (the whole string must be three `-`-separated
components). -/
def splitOnDash : List Char → List (List Char)
  | [] => [[]]
  | c :: cs =>
    let rest := splitOnDash cs
    if c = '-' then [] :: rest
    else
      match rest with
      | [] => [[c]]
      | p :: ps => (c :: p) :: ps

/-- Numeric value of a decimal digit character, `none` for anything else. -/
def charDigit (c : Char) : Option Nat :=
  if '0' ≤ c ∧ c ≤ '9' then some (c.toNat - '0'.toNat) else none

/-- Accumulator pass of `digitsVal`. -/
def digitsValGo : List Char → Nat → Option Nat
  | [], acc => some acc
  | c :: cs, acc =>
    match charDigit c with
    | some d => digitsValGo cs (acc * 10 + d)
    | none => none

/-- Value of a nonempty all-digit character list, `none` otherwise. -/
def digitsVal (cs : List Char) : Option Nat :=
  match cs with
  | [] => none
  | _ => digitsValGo cs 0

/-- Gregorian leap-year test, as `datetime` implements it. -/
def isLeapYear (y : Nat) : Bool :=
  (y % 4 = 0 && y % 100 ≠ 0) || y % 400 = 0

/-- Number of days in month `m` of year `y` (the `datetime` constructor
rejects a day beyond this). -/
def monthLength (y m : Nat) : Nat :=
  if m = 2 then (if isLeapYear y then 29 else 28)
  else if m = 4 ∨ m = 6 ∨ m = 9 ∨ m = 11 then 30
  else 31

/-- Days from 1970-01-01 to year `y`, month `m`, day `d` (civil calendar),
so that date comparisons become integer comparisons.  Standard
days-from-civil computation; all intermediate divisions are on
nonnegative numbers. -/
def daysFromCivil (y m d : Nat) : Int :=
  let y' : Nat := if m ≤ 2 then y - 1 else y
  let era : Nat := y' / 400
  let yoe : Nat := y' - era * 400
  let mp : Nat := (m + 9) % 12
  let doy : Nat := (153 * mp + 2) / 5 + (d - 1)
  let doe : Nat := yoe * 365 + yoe / 4 - yoe / 100 + doy
  (era * 146097 + doe : Int) - 719468

/-- `datetime.strptime(s, '%Y-%m-%d')`: `some` of the midnight epoch-second
timestamp of the parsed date, `none` when `strptime` (or the `datetime`
constructor) raises. -/
def parseDate (s : String) : Option Int :=
  match splitOnDash s.data with
  | [ys, ms, ds] =>
    match digitsVal ys, digitsVal ms, digitsVal ds with
    | some y, some m, some d =>
      if ys.length = 4 ∧ 1 ≤ y ∧ ms.length ≤ 2 ∧ 1 ≤ m ∧ m ≤ 12 ∧
          ds.length ≤ 2 ∧ 1 ≤ d ∧ d ≤ monthLength y m
      then some (daysFromCivil y m d * 86400)
      else none
    | _, _, _ => none
  | _ => none

/-- `is_review_recent(review, days=60)` applied to the record's date string:
parse the date; accept iff `utcnow() - days ≤ date ≤ utcnow() + 365 days`;
any parse exception is caught and the function returns `True`. -/
def is_review_recent (now : Int) (dateStr : String) (days : Int) : Bool :=
  match parseDate dateStr with
  | some t => decide (now - days * 86400 ≤ t) && decide (t ≤ now + 365 * 86400)
  | none => true

/-! ### State file access and guards -/

/-- `seen_review_ids` as loaded by `load_last_review_id`: the stored list, or
`[]` when the state file is absent (`prior = none`). -/
def seenOf (prior : Option PersistedState) : List Int :=
  match prior with
  | some st => st.seen_review_ids
  | none => []

/-- `should_run_check()`: skip (return `False`) iff the state file exists and
`(utcnow() - last_checked).total_seconds() / 3600 < 0.5`; any read/parse
exception falls through to `True`.  Over the reals the guard is exactly
`now - last_checked < 1800` seconds. -/
def should_run_check (prior : Option PersistedState) (now : Int) : Bool :=
  match prior with
  | some st => decide (1800 ≤ now - st.last_checked)
  | none => true

/-- `get_last_notification_time()`: the stored `last_notification_sent`, or
`None` when the file is absent (or unreadable). -/
def get_last_notification_time (prior : Option PersistedState) : Option Int :=
  match prior with
  | some st => some st.last_notification_sent
  | none => none

/-- `send_health_check()`: returns whether the health-check notification is
posted, namely when a last-notification time exists and
`(utcnow() - last_notif_time).total_seconds() / 86400 ≥ 7`, i.e.
`now - t ≥ 604800` seconds. -/
def send_health_check (prior : Option PersistedState) (now : Int) : Bool :=
  match get_last_notification_time prior with
  | some t => decide (7 * 86400 ≤ now - t)
  | none => false

/-- `save_last_review_id(review_id, seen_ids)`: the state object written to
the file.  The source computes `list(set(seen_ids))[-100:]`; CPython's set
iteration order is not specified, so we model it by the deterministic
`List.dedup` followed by the same keep-the-last-100 slice — every property
proved below about the result (its length and distinctness) holds for any
iteration order.  Both timestamps are stamped with the current time,
unconditionally. -/
def save_last_review_id (now : Int) (reviewId : Int) (seenIds : List Int) :
    PersistedState :=
  let kept := seenIds.dedup
  { last_review_id := reviewId
    seen_review_ids := kept.drop (kept.length - 100)
    last_checked := now
    last_notification_sent := now }

/-! ### New-review detection (`main`, lines 414–452) -/

/-- The numeric value of a present, numeric `review_id`. -/
def idNum (r : RawReview) : Option Int :=
  match r.review_id with
  | some (.num n) => some n
  | _ => none

/-- One iteration of the detection loop in `main`: a record is appended to
`new_reviews` iff it is a dict carrying `review_id` (of numeric type) and
`date`, its id is not in the seen list, and `is_review_recent` accepts it. -/
def isNewReview (now : Int) (seen : List Int) (r : RawReview) : Bool :=
  match r.review_id, r.date with
  | some (.num rid), some d =>
    if rid ∈ seen then false else is_review_recent now d 60
  | _, _ => false

/-- The `new_reviews` list built by `main` before sorting. -/
def computeNewReviews (now : Int) (seen : List Int) (rs : List RawReview) :
    List RawReview :=
  rs.filter (isNewReview now seen)

/-! ### Sorting (`new_reviews.sort(key=lambda x: (x.get('date', ''), x['review_id']))`) -/

/-- First sort-key component: the raw date string (`x.get('date', '')`). -/
def dateKey (r : RawReview) : String :=
  (r.date).getD ""

/-- Second sort-key component: the numeric review id (`x['review_id']`; every
record reaching the sort passed the numeric-id check, so the default is
never exercised). -/
def idKey (r : RawReview) : Int :=
  (idNum r).getD 0

/-- Python tuple comparison on `(date, review_id)`: strict on the date
string, then non-strict on the id. -/
def keyRel (a b : RawReview) : Prop :=
  dateKey a < dateKey b ∨ (dateKey a = dateKey b ∧ idKey a ≤ idKey b)

instance : DecidableRel keyRel := fun a b => by
  unfold keyRel; infer_instance

instance : IsTotal RawReview keyRel := by
  constructor
  intro a b
  rcases lt_trichotomy (dateKey a) (dateKey b) with h | h | h
  · exact Or.inl (Or.inl h)
  · rcases le_total (idKey a) (idKey b) with h' | h'
    · exact Or.inl (Or.inr ⟨h, h'⟩)
    · exact Or.inr (Or.inr ⟨h.symm, h'⟩)
  · exact Or.inr (Or.inl h)

instance : IsTrans RawReview keyRel := by
  constructor
  intro a b c hab hbc
  rcases hab with h1 | ⟨e1, l1⟩
  · rcases hbc with h2 | ⟨e2, _⟩
    · exact Or.inl (h1.trans h2)
    · exact Or.inl (e2 ▸ h1)
  · rcases hbc with h2 | ⟨e2, l2⟩
    · exact Or.inl (e1 ▸ h2)
    · exact Or.inr ⟨e1.trans e2, l1.trans l2⟩

/-- The in-place stable sort `new_reviews.sort(...)`. -/
def sortReviews (l : List RawReview) : List RawReview :=
  l.insertionSort keyRel

/-! ### Emission and state commit (`main`, lines 454–534) -/

/-- The `required_fields` presence check guarding each notification. -/
def hasRequiredFields (r : RawReview) : Bool :=
  r.review_id.isSome && r.title.isSome && r.author.isSome &&
    r.stars.isSome && r.date.isSome && r.review_url.isSome

/-- `[r['review_id'] for r in reviews_data if isinstance(r, dict) and
'review_id' in r]`: the values under present `review_id` keys. -/
def idsOf (rs : List RawReview) : List ReviewIdField :=
  rs.filterMap (·.review_id)

/-- `max(valid_ids)` guarded by `if valid_ids:`.  `none` models both the
empty-list guard failing and the `TypeError` `max` raises on a list mixing
numbers with another type (either way `save_last_review_id` is not reached).
A list made up entirely of non-numeric ids is outside this model; the
claims below never depend on it. -/
def maxOfIds (l : List ReviewIdField) : Option Int :=
  if l.all (fun f => match f with | .num _ => true | .nonNum => false) then
    match l.filterMap (fun f => match f with | .num n => some n | .nonNum => none) with
    | [] => none
    | x :: xs => some (xs.foldl max x)
  else none

/-- The state-commit step shared by both branches of `main`: compute
`valid_ids` and their max, extend the seen list (`newlySeen` is empty in the
no-new-reviews branch; in the emission branch it holds the ids whose
notification succeeded), and write the file.  `none` means the file is left
untouched (empty `valid_ids`, or the exception path). -/
def commitState (now : Int) (seen newlySeen : List Int) (rs : List RawReview) :
    Option PersistedState :=
  match maxOfIds (idsOf rs) with
  | none => none
  | some m =>
    let vidNums := (idsOf rs).filterMap
      (fun f => match f with | .num n => some n | .nonNum => none)
    some (save_last_review_id now m (seen ++ newlySeen ++ vidNums))

/-- Observable outcome of one invocation of `main`.  `fetched` records
whether `scrape_g2_reviews` was called; `emitted` is the sequence of reviews
passed to `send_slack_notification`, in call order; `finalState = none`
means the state file was not rewritten. -/
structure RunResult where
  fetched : Bool
  emitted : List RawReview
  healthCheckSent : Bool
  finalState : Option PersistedState
deriving DecidableEq, Repr

/-- `main()`.  Inputs: whether `validate_secrets` passes, the state file
contents (`none` = absent), the current time, the value `scrape_g2_reviews`
would return (`none` = collection failure; `main` treats a non-list the same
as a failure before any state is touched), and the per-review outcome of
`send_slack_notification`. -/
def runMain (secretsOk : Bool) (prior : Option PersistedState) (now : Int)
    (fetchResult : Option (List RawReview)) (notifyOk : RawReview → Bool) :
    RunResult :=
  if !secretsOk then ⟨false, [], false, none⟩
  else if !(should_run_check prior now) then ⟨false, [], false, none⟩
  else
    match fetchResult with
    | none => ⟨true, [], false, none⟩
    | some rs =>
      if rs.isEmpty then ⟨true, [], false, none⟩
      else
        if (computeNewReviews now (seenOf prior) rs).isEmpty then
          ⟨true, [], send_health_check prior now,
           commitState now (seenOf prior) [] rs⟩
        else
          ⟨true,
           (sortReviews (computeNewReviews now (seenOf prior) rs)).filter
             hasRequiredFields,
           false,
           commitState now (seenOf prior)
             ((((sortReviews (computeNewReviews now (seenOf prior) rs)).filter
                 hasRequiredFields).filter notifyOk).filterMap idNum) rs⟩

/-! ### Collector: trigger phase (`trigger_collection_with_retry`) -/

/-- Outcome of one `requests.post` attempt of the trigger phase: a JSON
response carrying a snapshot id, a `Timeout`, another `RequestException`
(transient network error), or any other exception (which the source treats
as immediately fatal). -/
inductive TriggerOutcome
  | success (snapshotId : Int)
  | timeout
  | netError
  | otherError
deriving DecidableEq, Repr

/-- The `for attempt in range(1, max_retries + 1)` loop of
`trigger_collection_with_retry`, with `remaining` attempts left and the
current 1-based attempt number.  On `Timeout`/`RequestException` the source
retries when `attempt < max_retries` and returns `None` on the last attempt;
recursing into `remaining = 0` returns `none`, which is the same thing. -/
def triggerLoop (outcomes : Nat → TriggerOutcome) : Nat → Nat → Option Int
  | 0, _ => none
  | remaining + 1, attempt =>
    match outcomes attempt with
    | .success v => some v
    | .otherError => none
    | .timeout => triggerLoop outcomes remaining (attempt + 1)
    | .netError => triggerLoop outcomes remaining (attempt + 1)

/-- `trigger_collection_with_retry(headers, payload, max_retries)`: run the
attempt loop starting at attempt 1. -/
def trigger_collection_with_retry (outcomes : Nat → TriggerOutcome)
    (maxRetries : Nat) : Option Int :=
  triggerLoop outcomes maxRetries 1

/-! ### Collector: poll phase (`check_progress_with_retry`) -/

/-- Outcome of one progress request: a JSON body with a `status` string, or
a `RequestException`. -/
inductive PollResponse
  | ok (status : String)
  | err
deriving DecidableEq, Repr

/-- The `while elapsed < max_wait` loop of `check_progress_with_retry` with
`max_wait = 1500`, `check_interval = 15` (the values `scrape_g2_reviews`
passes).  The source adds `check_interval` to `elapsed` before issuing
request number `idx`, so request `idx` is issued exactly while `15 * idx <
1500`, i.e. for `idx < 100`; `remaining = 100 - idx` counts the iterations
left.  `consecFails` is `consecutive_failures`, reset to `0` after every
successful request; a response whose status is neither `ready` nor `failed`
(`running`, `starting`, or unknown) re-enters the loop.  The result pairs
the returned boolean with the number of requests issued. -/
def check_progress_loop (resp : Nat → PollResponse) :
    Nat → Nat → Nat → Bool × Nat
  | 0, _, idx => (false, idx)
  | remaining + 1, consecFails, idx =>
    match resp idx with
    | .ok s =>
      if s = "ready" then (true, idx + 1)
      else if s = "failed" then (false, idx + 1)
      else check_progress_loop resp remaining 0 (idx + 1)
    | .err =>
      if 3 ≤ consecFails + 1 then (false, idx + 1)
      else check_progress_loop resp remaining (consecFails + 1) (idx + 1)

/-- `check_progress_with_retry(snapshot_id, headers, max_wait=1500,
check_interval=15)`: the loop from `elapsed = 0`, `consecutive_failures =
0`, first request index `0`. -/
def check_progress_with_retry (resp : Nat → PollResponse) : Bool × Nat :=
  check_progress_loop resp 100 0 0

/-- `scrape_g2_reviews()`: trigger (with `max_retries = 3`), then poll, then
download.  The successful trigger response is modelled as carrying the
snapshot id directly; `downloadData` is the resolved outcome of
`download_data_with_retry` (`none` covers its failure and empty-payload
cases). -/
def scrape_g2_reviews (trig : Nat → TriggerOutcome)
    (poll : Nat → PollResponse) (downloadData : Option (List RawReview)) :
    Option (List RawReview) :=
  match trigger_collection_with_retry trig 3 with
  | none => none
  | some _ =>
    if (check_progress_with_retry poll).1 then downloadData else none

/-- A transient trigger failure: the two exception types the source retries. -/
def transientOutcome (o : TriggerOutcome) : Prop :=
  o = .timeout ∨ o = .netError

instance : DecidablePred transientOutcome := fun o => by
  unfold transientOutcome; infer_instance

/-! ### Concrete fixtures used by witnesses and counterexamples -/

/-- A fully populated review record with the given id and date string. -/
def sampleReview (n : Int) (d : String) : RawReview :=
  ⟨some (.num n), some d, some "t", some "a", some 5, some "u"⟩

/-- State for the C1 failing input: checked 2 hours ago, last notification
1 day ago, id 1 already seen. -/
def c1Prior : PersistedState :=
  ⟨1, [1], 999992800, 999913600⟩

/-- Fetch for the C1 failing input: the single review is already seen. -/
def c1Fetch : List RawReview :=
  [sampleReview 1 "2001-09-01"]

/-- State for the C3 counterexample: last notification 8 days before the
run's current time `1717203600`. -/
def c3Prior : PersistedState :=
  ⟨0, [], 1716508800, 1716512400⟩

/-- Fetch for the C3 counterexample: one unseen, recent review. -/
def c3Fetch : List RawReview :=
  [sampleReview 7 "2024-06-01"]

/-- Trigger outcomes failing transiently on attempts 1–2 and succeeding on
attempt 3. -/
def c8OutcomesA : Nat → TriggerOutcome :=
  fun n => if n = 3 then .success 7 else .timeout

/-- Trigger outcomes failing transiently on every attempt. -/
def c8OutcomesB : Nat → TriggerOutcome :=
  fun _ => .netError

/-- Poll responses: `running` for five cycles, then `ready`. -/
def c9RespReady : Nat → PollResponse :=
  fun i => if i = 5 then .ok "ready" else .ok "running"

/-- Poll responses: one transient error at cycle 2, `failed` at cycle 6,
`running` otherwise. -/
def c9RespFailed : Nat → PollResponse :=
  fun i => if i = 6 then .ok "failed" else if i = 2 then .err else .ok "running"

/-- Poll responses: every request errors. -/
def c9RespErrs : Nat → PollResponse :=
  fun _ => .err

/-- A record whose date string `strptime` cannot parse. -/
def malformedReview : RawReview :=
  ⟨some (.num 42), some "not-a-date", some "t", some "a", some 5, some "u"⟩

/-! ### Helper lemmas -/

/-- Any committed final state comes from `commitState` on the fetched list. -/
lemma runMain_finalState (secretsOk : Bool) (prior : Option PersistedState)
    (now : Int) (fetch : Option (List RawReview)) (notifyOk : RawReview → Bool)
    (st' : PersistedState)
    (h : (runMain secretsOk prior now fetch notifyOk).finalState = some st') :
    ∃ rs newlySeen, fetch = some rs ∧
      commitState now (seenOf prior) newlySeen rs = some st' := by
  unfold runMain at h
  split at h
  · simp at h
  split at h
  · simp at h
  split at h
  · simp at h
  rename_i rs
  split at h
  · simp at h
  split at h
  · exact ⟨rs, [], rfl, h⟩
  · exact ⟨rs, _, rfl, h⟩

/-- Every emitted review passed the newness test of the detection loop. -/
lemma mem_emitted_isNew (secretsOk : Bool) (prior : Option PersistedState)
    (now : Int) (fetch : Option (List RawReview)) (notifyOk : RawReview → Bool)
    (r : RawReview)
    (h : r ∈ (runMain secretsOk prior now fetch notifyOk).emitted) :
    isNewReview now (seenOf prior) r = true := by
  unfold runMain at h
  split at h
  · simp at h
  split at h
  · simp at h
  split at h
  · simp at h
  rename_i rs
  split at h
  · simp at h
  split at h
  · simp at h
  · have h1 : r ∈ sortReviews (computeNewReviews now (seenOf prior) rs) :=
      (List.mem_filter.mp h).1
    have h2 : r ∈ computeNewReviews now (seenOf prior) rs :=
      (List.perm_insertionSort keyRel _).subset h1
    exact (List.mem_filter.mp h2).2

/-! ### Claim theorems -/

/-- C1: the claim states that `last_notification_sent` is updated only when
at least one review notification succeeded.  The code instead stamps it on
every state commit: this run fetches one already-seen review, emits nothing
(no review notification and no health check), still commits state, and the
committed `last_notification_sent` equals the run time, differing from the
stored value. -/
theorem C1_code_bug_eval :
    (runMain true (some c1Prior) 1000000000 (some c1Fetch)
        (fun _ => false)).emitted = [] ∧
    (runMain true (some c1Prior) 1000000000 (some c1Fetch)
        (fun _ => false)).healthCheckSent = false ∧
    (runMain true (some c1Prior) 1000000000 (some c1Fetch)
        (fun _ => false)).finalState =
      some ⟨1, [1], 1000000000, 1000000000⟩ ∧
    c1Prior.last_notification_sent ≠ 1000000000 := by
  decide

/-- C2 (amended): after every run that commits state, the persisted
`last_review_id` is the maximum identifier of the current fetch's records
that carry a `review_id`, not the maximum across all runs so far. -/
theorem C2_last_review_id_current_fetch (secretsOk : Bool)
    (prior : Option PersistedState) (now : Int)
    (fetch : Option (List RawReview)) (notifyOk : RawReview → Bool)
    (rs : List RawReview) (st' : PersistedState)
    (hf : fetch = some rs)
    (h : (runMain secretsOk prior now fetch notifyOk).finalState = some st') :
    maxOfIds (idsOf rs) = some st'.last_review_id := by
  obtain ⟨rs', newlySeen, hfe, hc⟩ :=
    runMain_finalState secretsOk prior now fetch notifyOk st' h
  rw [hf] at hfe
  cases hfe
  unfold commitState at hc
  split at hc
  · simp at hc
  · rename_i m hm
    obtain rfl : save_last_review_id now m
        (seenOf prior ++ newlySeen ++ (idsOf rs).filterMap
          (fun f => match f with | .num n => some n | .nonNum => none)) = st' :=
      Option.some.inj hc
    exact hm

/-- C2 counterexample: a first run ingests review id 100 and commits
`last_review_id = 100`; a second run fetching only id 5 commits
`last_review_id = 5`, so the persisted value is not the maximum across all
ingested fetches and does decrease between committed runs. -/
theorem C2_counterexample :
    (runMain true none 1717200000 (some [sampleReview 100 "2024-06-01"])
        (fun _ => true)).finalState =
      some ⟨100, [100], 1717200000, 1717200000⟩ ∧
    (runMain true (some ⟨100, [100], 1717200000, 1717200000⟩) 1717203600
        (some [sampleReview 5 "2024-06-01"]) (fun _ => true)).finalState =
      some ⟨5, [100, 5], 1717203600, 1717203600⟩ ∧
    (5 : Int) < 100 := by
  decide

/-- C2 witness: the amended statement applied to the second run of the
counterexample scenario. -/
theorem C2_last_review_id_current_fetch_witness :
    maxOfIds (idsOf [sampleReview 5 "2024-06-01"]) = some 5 := by
  have h := C2_last_review_id_current_fetch true
    (some ⟨100, [100], 1717200000, 1717200000⟩) 1717203600
    (some [sampleReview 5 "2024-06-01"]) (fun _ => true)
    [sampleReview 5 "2024-06-01"] ⟨5, [100, 5], 1717203600, 1717203600⟩
    rfl (by decide)
  simpa using h

/-- C6: after every run that commits state, the persisted
`seen_review_ids` list has at most 100 entries and no duplicate
identifiers, for every input fetch and prior state. -/
theorem C6_seen_ids_bounded (secretsOk : Bool) (prior : Option PersistedState)
    (now : Int) (fetch : Option (List RawReview)) (notifyOk : RawReview → Bool)
    (st' : PersistedState)
    (h : (runMain secretsOk prior now fetch notifyOk).finalState = some st') :
    st'.seen_review_ids.length ≤ 100 ∧ st'.seen_review_ids.Nodup := by
  obtain ⟨rs, newlySeen, -, hc⟩ :=
    runMain_finalState secretsOk prior now fetch notifyOk st' h
  unfold commitState at hc
  split at hc
  · simp at hc
  · rename_i m hm
    obtain rfl : save_last_review_id now m
        (seenOf prior ++ newlySeen ++ (idsOf rs).filterMap
          (fun f => match f with | .num n => some n | .nonNum => none)) = st' :=
      Option.some.inj hc
    unfold save_last_review_id
    constructor
    · simp only [List.length_drop]
      omega
    · exact (List.drop_sublist _ _).nodup (List.nodup_dedup _)

/-- C6 witness: a concrete committing run. -/
theorem C6_seen_ids_bounded_witness :
    ([5] : List Int).length ≤ 100 ∧ ([5] : List Int).Nodup :=
  C6_seen_ids_bounded true none 1717203600
    (some [sampleReview 5 "2024-06-01"]) (fun _ => true)
    ⟨5, [5], 1717203600, 1717203600⟩ (by decide)

/-- C7: a run whose stored `last_checked` is less than 30 minutes (1800
seconds) before the current time performs no fetch and leaves the state
file untouched: the whole run result is the skip result. -/
theorem C7_rate_limit_guard (secretsOk : Bool) (st : PersistedState)
    (now : Int) (fetch : Option (List RawReview)) (notifyOk : RawReview → Bool)
    (h : now - st.last_checked < 1800) :
    runMain secretsOk (some st) now fetch notifyOk =
      ⟨false, [], false, none⟩ := by
  cases secretsOk with
  | false => rfl
  | true =>
    have hd : should_run_check (some st) now = false := by
      unfold should_run_check
      simp
      omega
    unfold runMain
    rw [hd]
    rfl

/-- C7 witness: a run 10 minutes after the recorded check is skipped. -/
theorem C7_rate_limit_guard_witness :
    runMain true (some ⟨0, [], 1717203000, 0⟩) 1717203600
      (some [sampleReview 5 "2024-06-01"]) (fun _ => true) =
      ⟨false, [], false, none⟩ :=
  C7_rate_limit_guard true ⟨0, [], 1717203000, 0⟩ 1717203600
    (some [sampleReview 5 "2024-06-01"]) (fun _ => true) (by decide)

/-- C3 (amended): the health-check notification is emitted exactly when the
run reaches the no-new-reviews branch — secrets valid, rate-limit guard
passed, a nonempty fetch in which no record is new — and the state file
records a last notification at least 7 days old; in particular a run that
finds new reviews never emits it. -/
theorem C3_health_check_only_without_new_reviews (secretsOk : Bool)
    (prior : Option PersistedState) (now : Int)
    (fetch : Option (List RawReview)) (notifyOk : RawReview → Bool) :
    (runMain secretsOk prior now fetch notifyOk).healthCheckSent = true ↔
      (secretsOk = true ∧ should_run_check prior now = true ∧
       ∃ rs, fetch = some rs ∧ rs ≠ [] ∧
         computeNewReviews now (seenOf prior) rs = [] ∧
         send_health_check prior now = true) := by
  unfold runMain
  cases secretsOk with
  | false => simp
  | true =>
    cases hsr : should_run_check prior now with
    | false => simp [hsr]
    | true =>
      cases fetch with
      | none => simp
      | some rs =>
        cases hrs : rs.isEmpty with
        | true =>
          simp only [Bool.not_true, Bool.false_eq_true, if_false, hrs, if_true]
          simp [List.isEmpty_iff.mp hrs]
        | false =>
          cases hnew : (computeNewReviews now (seenOf prior) rs).isEmpty with
          | true =>
            simp only [Bool.not_true, Bool.false_eq_true, if_false, hrs,
              hnew, if_true]
            have h1 : rs ≠ [] := by
              intro he
              rw [he] at hrs
              simp at hrs
            simp [h1, List.isEmpty_iff.mp hnew]
          | false =>
            simp only [Bool.not_true, Bool.false_eq_true, if_false, hrs,
              hnew, if_false]
            have h2 : computeNewReviews now (seenOf prior) rs ≠ [] := by
              intro he
              rw [he] at hnew
              simp at hnew
            simp [h2]

/-- C3 counterexample: with the last notification sent 8 days before the
current time, a run that does find (and emit) a new review sends no
health-check notification, refuting "regardless of whether any new reviews
were found". -/
theorem C3_counterexample :
    7 * 86400 ≤ 1717203600 - c3Prior.last_notification_sent ∧
    (runMain true (some c3Prior) 1717203600 (some c3Fetch)
        (fun _ => true)).emitted ≠ [] ∧
    (runMain true (some c3Prior) 1717203600 (some c3Fetch)
        (fun _ => true)).healthCheckSent = false := by
  decide

/-- C3 witness: the amended statement instantiated on a run whose fetch
contains only an already-seen review and whose recorded last notification
is 8 days old. -/
theorem C3_health_check_only_without_new_reviews_witness :
    (runMain true (some ⟨7, [7], 1716512400, 1716512400⟩) 1717203600
        (some [sampleReview 7 "2024-06-01"])
        (fun _ => true)).healthCheckSent = true :=
  (C3_health_check_only_without_new_reviews true
      (some ⟨7, [7], 1716512400, 1716512400⟩) 1717203600
      (some [sampleReview 7 "2024-06-01"]) (fun _ => true)).mpr
    ⟨rfl, by decide, [sampleReview 7 "2024-06-01"], rfl, by decide,
     by decide, by decide⟩

/-- C5: the sequence of new reviews handed to the notifier is sorted
ascending by the pair (date string, review id), for every input fetch and
prior state — hence independent of the order the Collector returned. -/
theorem C5_emitted_sorted (secretsOk : Bool) (prior : Option PersistedState)
    (now : Int) (fetch : Option (List RawReview))
    (notifyOk : RawReview → Bool) :
    List.Sorted keyRel (runMain secretsOk prior now fetch notifyOk).emitted := by
  unfold runMain
  split
  · exact List.sorted_nil
  split
  · exact List.sorted_nil
  split
  · exact List.sorted_nil
  split
  · exact List.sorted_nil
  split
  · exact List.sorted_nil
  · exact (List.sorted_insertionSort keyRel _).filter hasRequiredFields

/-- A date string the parser rejects makes `is_review_recent` return true
(the exception handler's fallback). -/
lemma is_review_recent_of_parse_none (now : Int) (ds : String) (days : Int)
    (h : parseDate ds = none) : is_review_recent now ds days = true := by
  unfold is_review_recent
  rw [h]

/-- C4: a record carrying a numeric `review_id` and a parseable `date` is
classified as new iff its id is unseen and its date lies in
`[now − 60 days, now + 365 days]`; consequently a record whose id is in the
seen list, or whose (parseable) date is more than 60 days old, is never
emitted. -/
theorem C4_new_iff_unseen_and_recent :
    (∀ (now : Int) (seen : List Int) (r : RawReview) (rid : Int)
        (ds : String) (t : Int),
      r.review_id = some (.num rid) → r.date = some ds →
      parseDate ds = some t →
      (isNewReview now seen r = true ↔
        (rid ∉ seen ∧ now - 60 * 86400 ≤ t ∧ t ≤ now + 365 * 86400)))
  ∧ (∀ (secretsOk : Bool) (prior : Option PersistedState) (now : Int)
        (fetch : Option (List RawReview)) (notifyOk : RawReview → Bool)
        (r : RawReview) (rid : Int),
      r.review_id = some (.num rid) → rid ∈ seenOf prior →
      r ∉ (runMain secretsOk prior now fetch notifyOk).emitted)
  ∧ (∀ (secretsOk : Bool) (prior : Option PersistedState) (now : Int)
        (fetch : Option (List RawReview)) (notifyOk : RawReview → Bool)
        (r : RawReview) (ds : String) (t : Int),
      r.date = some ds → parseDate ds = some t → t < now - 60 * 86400 →
      r ∉ (runMain secretsOk prior now fetch notifyOk).emitted) := by
  refine ⟨?_, ?_, ?_⟩
  · intro now seen r rid ds t hid hd hp
    unfold isNewReview is_review_recent
    by_cases hmem : rid ∈ seen
    · simp [hid, hd, hp, hmem]
    · simp [hid, hd, hp, hmem]
  · intro secretsOk prior now fetch notifyOk r rid hid hmem hin
    have hnew := mem_emitted_isNew secretsOk prior now fetch notifyOk r hin
    unfold isNewReview at hnew
    cases hd : r.date with
    | none => simp [hid, hd] at hnew
    | some ds => simp [hid, hd, hmem] at hnew
  · intro secretsOk prior now fetch notifyOk r ds t hd hp ht hin
    have hnew := mem_emitted_isNew secretsOk prior now fetch notifyOk r hin
    unfold isNewReview at hnew
    cases hid : r.review_id with
    | none => simp [hid, hd] at hnew
    | some f =>
      cases f with
      | nonNum => simp [hid, hd] at hnew
      | num rid =>
        by_cases hmem : rid ∈ seenOf prior
        · simp [hid, hd, hmem] at hnew
        · simp [hid, hd, hmem, is_review_recent, hp] at hnew
          omega

/-- C4 witness: the classification and the two never-emitted corollaries at
concrete inputs (an unseen recent record is new; a seen record and a
61-days-old record are not emitted). -/
theorem C4_new_iff_unseen_and_recent_witness :
    isNewReview 1717203600 [5] (sampleReview 7 "2024-06-01") = true ∧
    sampleReview 5 "2024-06-01" ∉
      (runMain true (some ⟨5, [5], 0, 0⟩) 1717203600
        (some [sampleReview 5 "2024-06-01", sampleReview 7 "2024-06-01"])
        (fun _ => true)).emitted ∧
    sampleReview 9 "2010-01-01" ∉
      (runMain true (some ⟨5, [5], 0, 0⟩) 1717203600
        (some [sampleReview 9 "2010-01-01", sampleReview 7 "2024-06-01"])
        (fun _ => true)).emitted := by
  refine ⟨?_, ?_, ?_⟩
  · exact (C4_new_iff_unseen_and_recent.1 1717203600 [5]
      (sampleReview 7 "2024-06-01") 7 "2024-06-01" 1717200000
      rfl rfl (by decide)).mpr (by decide)
  · exact C4_new_iff_unseen_and_recent.2.1 true (some ⟨5, [5], 0, 0⟩)
      1717203600
      (some [sampleReview 5 "2024-06-01", sampleReview 7 "2024-06-01"])
      (fun _ => true) (sampleReview 5 "2024-06-01") 5 rfl (by decide)
  · exact C4_new_iff_unseen_and_recent.2.2 true (some ⟨5, [5], 0, 0⟩)
      1717203600
      (some [sampleReview 9 "2010-01-01", sampleReview 7 "2024-06-01"])
      (fun _ => true) (sampleReview 9 "2010-01-01") "2010-01-01"
      1262304000 rfl (by decide) (by decide)

/-- C10: a record whose `date` string `strptime` cannot parse is classified
recent by the caught-exception fallback, so an unseen record with a
malformed date is classified new and, when it carries all required fields,
is emitted. -/
theorem C10_malformed_date_emitted :
    (∀ (now : Int) (ds : String), parseDate ds = none →
      is_review_recent now ds 60 = true)
  ∧ (∀ (now : Int) (seen : List Int) (r : RawReview) (rid : Int)
        (ds : String),
      r.review_id = some (.num rid) → r.date = some ds →
      parseDate ds = none → rid ∉ seen → isNewReview now seen r = true)
  ∧ (∀ (prior : Option PersistedState) (now : Int) (rs : List RawReview)
        (notifyOk : RawReview → Bool) (r : RawReview) (rid : Int)
        (ds : String),
      should_run_check prior now = true → r ∈ rs →
      r.review_id = some (.num rid) → rid ∉ seenOf prior →
      r.date = some ds → parseDate ds = none → hasRequiredFields r = true →
      r ∈ (runMain true prior now (some rs) notifyOk).emitted) := by
  have hnew : ∀ (now : Int) (seen : List Int) (r : RawReview) (rid : Int)
      (ds : String), r.review_id = some (.num rid) → r.date = some ds →
      parseDate ds = none → rid ∉ seen → isNewReview now seen r = true := by
    intro now seen r rid ds hid hd hp hmem
    unfold isNewReview
    simp [hid, hd, hmem, is_review_recent_of_parse_none now ds 60 hp]
  refine ⟨fun now ds h => is_review_recent_of_parse_none now ds 60 h, hnew, ?_⟩
  intro prior now rs notifyOk r rid ds hsr hmem hid hseen hd hp hreq
  have hmemNew : r ∈ computeNewReviews now (seenOf prior) rs :=
    List.mem_filter.mpr ⟨hmem, hnew now (seenOf prior) r rid ds hid hd hp hseen⟩
  have hrsne : rs.isEmpty = false := by
    cases rs with
    | nil => cases hmem
    | cons a l => rfl
  have hnewne : (computeNewReviews now (seenOf prior) rs).isEmpty = false := by
    cases he : computeNewReviews now (seenOf prior) rs with
    | nil => rw [he] at hmemNew; cases hmemNew
    | cons a l => rfl
  unfold runMain
  rw [hsr]
  simp only [Bool.not_true, Bool.false_eq_true, if_false, hrsne, hnewne]
  exact List.mem_filter.mpr
    ⟨((List.perm_insertionSort keyRel _).symm.subset hmemNew), hreq⟩

/-- C10 witness: a record dated "not-a-date" (unparseable) is emitted on a
first run. -/
theorem C10_malformed_date_emitted_witness :
    malformedReview ∈
      (runMain true none 1717203600 (some [malformedReview])
        (fun _ => true)).emitted :=
  C10_malformed_date_emitted.2.2 none 1717203600 [malformedReview]
    (fun _ => true) malformedReview 42 "not-a-date" rfl
    (by decide) rfl (by decide) rfl (by decide) (by decide)

/-- C8: with `max_retries = 3`, transient failures (timeout or network
error) on attempts 1 and 2 followed by success on attempt 3 make the
trigger phase return the successful result, and the collection proceeds to
the poll phase; transient failures on all 3 attempts make the trigger phase
return `none` and the whole collection fail. -/
theorem C8_trigger_retry :
    (∀ (out : Nat → TriggerOutcome) (poll : Nat → PollResponse)
        (dl : Option (List RawReview)) (v : Int),
      transientOutcome (out 1) → transientOutcome (out 2) →
      out 3 = .success v →
      trigger_collection_with_retry out 3 = some v ∧
      scrape_g2_reviews out poll dl =
        (if (check_progress_with_retry poll).1 then dl else none))
  ∧ (∀ (out : Nat → TriggerOutcome) (poll : Nat → PollResponse)
        (dl : Option (List RawReview)),
      transientOutcome (out 1) → transientOutcome (out 2) →
      transientOutcome (out 3) →
      trigger_collection_with_retry out 3 = none ∧
      scrape_g2_reviews out poll dl = none) := by
  constructor
  · intro out poll dl v h1 h2 h3
    have ht : trigger_collection_with_retry out 3 = some v := by
      unfold trigger_collection_with_retry
      rcases h1 with h1 | h1 <;> rcases h2 with h2 | h2 <;>
        simp [triggerLoop, h1, h2, h3]
    refine ⟨ht, ?_⟩
    unfold scrape_g2_reviews
    rw [ht]
  · intro out poll dl h1 h2 h3
    have ht : trigger_collection_with_retry out 3 = none := by
      unfold trigger_collection_with_retry
      rcases h1 with h1 | h1 <;> rcases h2 with h2 | h2 <;>
        rcases h3 with h3 | h3 <;> simp [triggerLoop, h1, h2, h3]
    refine ⟨ht, ?_⟩
    unfold scrape_g2_reviews
    rw [ht]

/-- C8 witness: the two scenarios at concrete outcome sequences. -/
theorem C8_trigger_retry_witness :
    trigger_collection_with_retry c8OutcomesA 3 = some 7 ∧
    trigger_collection_with_retry c8OutcomesB 3 = none ∧
    scrape_g2_reviews c8OutcomesB (fun _ => PollResponse.ok "ready")
      (some []) = none := by
  refine ⟨?_, ?_, ?_⟩
  · exact (C8_trigger_retry.1 c8OutcomesA (fun _ => PollResponse.ok "ready")
      (some []) 7 (by decide) (by decide) (by decide)).1
  · exact (C8_trigger_retry.2 c8OutcomesB (fun _ => PollResponse.ok "ready")
      (some []) (by decide) (by decide) (by decide)).1
  · exact (C8_trigger_retry.2 c8OutcomesB (fun _ => PollResponse.ok "ready")
      (some []) (by decide) (by decide) (by decide)).2

/-- One loop iteration on a transient error below the consecutive-failure
cap: the count increments and polling continues. -/
lemma poll_step_err (resp : Nat → PollResponse) (n cf idx : Nat)
    (h : resp idx = .err) (hcf : cf + 1 < 3) :
    check_progress_loop resp (n + 1) cf idx =
      check_progress_loop resp n (cf + 1) (idx + 1) := by
  simp only [check_progress_loop, h]
  rw [if_neg (by omega)]

/-- One loop iteration on a transient error reaching the cap: the loop
returns failure at once. -/
lemma poll_step_err_abort (resp : Nat → PollResponse) (n cf idx : Nat)
    (h : resp idx = .err) (hcf : 3 ≤ cf + 1) :
    check_progress_loop resp (n + 1) cf idx = (false, idx + 1) := by
  simp only [check_progress_loop, h]
  rw [if_pos hcf]

/-- Advancing the poll loop to the first terminal response: as long as the
responses before index `k` are all `running` or transient errors with no
three consecutive errors, the loop neither aborts nor times out before
issuing request `k`.  The `cf` invariants say the running count of
consecutive failures matches the trailing errors of the response
sequence. -/
lemma poll_loop_advance (resp : Nat → PollResponse) (k : Nat)
    (hk : resp k ≠ .err)
    (hpre : ∀ j, j < k → resp j = .ok "running" ∨ resp j = .err)
    (h3 : ∀ j, j + 2 < k →
      ¬(resp j = .err ∧ resp (j + 1) = .err ∧ resp (j + 2) = .err)) :
    ∀ fuel idx cf, idx ≤ k → k < idx + fuel → cf ≤ 2 →
      (resp idx = .err → cf ≤ 1) →
      (resp idx = .err → resp (idx + 1) = .err → cf = 0) →
      ∃ cf', check_progress_loop resp fuel cf idx =
        check_progress_loop resp (fuel - (k - idx)) cf' k := by
  intro fuel
  induction fuel with
  | zero =>
    intro idx cf h1 h2 _ _ _
    exact absurd h2 (by omega)
  | succ n ih =>
    intro idx cf hik hkf hcf2 hcf1 hcf0
    rcases eq_or_lt_of_le hik with heq | hlt
    · subst heq
      exact ⟨cf, by simp⟩
    · rcases hpre idx hlt with hrun | herr
      · have hstep : check_progress_loop resp (n + 1) cf idx =
            check_progress_loop resp n 0 (idx + 1) := by
          simp [check_progress_loop, hrun]
        obtain ⟨cf', hcf'⟩ := ih (idx + 1) 0 (by omega) (by omega) (by omega)
          (fun _ => by omega) (fun _ _ => rfl)
        refine ⟨cf', ?_⟩
        rw [hstep, hcf']
        congr 1
        omega
      · have hle1 : cf ≤ 1 := hcf1 herr
        have hstep : check_progress_loop resp (n + 1) cf idx =
            check_progress_loop resp n (cf + 1) (idx + 1) := by
          simp only [check_progress_loop, herr]
          rw [if_neg (by omega)]
        have hnext1 : resp (idx + 1) = .err → cf + 1 ≤ 1 := by
          intro h'
          have := hcf0 herr h'
          omega
        have hnext0 : resp (idx + 1) = .err → resp (idx + 2) = .err →
            cf + 1 = 0 := by
          intro h' h''
          exfalso
          rcases lt_or_ge (idx + 2) k with hlt2 | hge2
          · exact h3 idx hlt2 ⟨herr, h', h''⟩
          · have : idx + 1 = k ∨ idx + 2 = k := by omega
            rcases this with e | e
            · exact hk (e ▸ h')
            · exact hk (e ▸ h'')
        obtain ⟨cf', hcf'⟩ := ih (idx + 1) (cf + 1) (by omega) (by omega)
          (by omega) hnext1 hnext0
        refine ⟨cf', ?_⟩
        rw [hstep, hcf']
        congr 1
        omega

/-- C9: the poll loop (a) returns success with exactly `k + 1` requests
issued as soon as request `k < 100` reports `ready`, tolerating any mix of
`running` responses and transient errors with no three consecutive errors
before it (so an error followed by a successful response never aborts the
loop); (b) returns failure immediately, with no further requests, when
request `k` reports `failed`; and (c) returns failure after 3 consecutive
error responses. -/
theorem C9_poll_loop_behaviour :
    (∀ (resp : Nat → PollResponse) (k : Nat), k < 100 →
      (∀ j, j < k → resp j = .ok "running" ∨ resp j = .err) →
      (∀ j, j + 2 < k →
        ¬(resp j = .err ∧ resp (j + 1) = .err ∧ resp (j + 2) = .err)) →
      resp k = .ok "ready" →
      check_progress_with_retry resp = (true, k + 1))
  ∧ (∀ (resp : Nat → PollResponse) (k : Nat), k < 100 →
      (∀ j, j < k → resp j = .ok "running" ∨ resp j = .err) →
      (∀ j, j + 2 < k →
        ¬(resp j = .err ∧ resp (j + 1) = .err ∧ resp (j + 2) = .err)) →
      resp k = .ok "failed" →
      check_progress_with_retry resp = (false, k + 1))
  ∧ (∀ (resp : Nat → PollResponse),
      resp 0 = .err → resp 1 = .err → resp 2 = .err →
      check_progress_with_retry resp = (false, 3)) := by
  have main : ∀ (resp : Nat → PollResponse) (k : Nat) (s : String),
      k < 100 →
      (∀ j, j < k → resp j = .ok "running" ∨ resp j = .err) →
      (∀ j, j + 2 < k →
        ¬(resp j = .err ∧ resp (j + 1) = .err ∧ resp (j + 2) = .err)) →
      resp k = .ok s →
      check_progress_with_retry resp =
        (if s = "ready" then (true, k + 1)
         else if s = "failed" then (false, k + 1)
         else check_progress_loop resp (99 - k) 0 (k + 1)) := by
    intro resp k s hk100 hpre h3 hterm
    have hk : resp k ≠ .err := by rw [hterm]; intro h; cases h
    obtain ⟨cf', hadv⟩ := poll_loop_advance resp k hk hpre h3 100 0 0
      (by omega) (by omega) (by omega) (fun _ => by omega) (fun _ _ => rfl)
    unfold check_progress_with_retry
    rw [hadv]
    have hfuel : 100 - (k - 0) = (99 - k) + 1 := by omega
    rw [hfuel]
    simp [check_progress_loop, hterm]
  refine ⟨?_, ?_, ?_⟩
  · intro resp k hk100 hpre h3 hready
    have h := main resp k "ready" hk100 hpre h3 hready
    simpa using h
  · intro resp k hk100 hpre h3 hfailed
    have h := main resp k "failed" hk100 hpre h3 hfailed
    simpa using h
  · intro resp h0 h1 h2
    unfold check_progress_with_retry
    show check_progress_loop resp (99 + 1) 0 0 = (false, 3)
    rw [poll_step_err resp 99 0 0 h0 (by omega)]
    show check_progress_loop resp (98 + 1) 1 1 = (false, 3)
    rw [poll_step_err resp 98 1 1 h1 (by omega)]
    show check_progress_loop resp (97 + 1) 2 2 = (false, 3)
    rw [poll_step_err_abort resp 97 2 2 h2 (by omega)]

/-- C9 witness: `running` for five cycles then `ready` succeeds after six
requests; a run with one isolated transient error at cycle 2 still reacts
to `failed` at cycle 6 immediately; three consecutive errors abort after
three requests. -/
theorem C9_poll_loop_behaviour_witness :
    check_progress_with_retry c9RespReady = (true, 6) ∧
    check_progress_with_retry c9RespFailed = (false, 7) ∧
    check_progress_with_retry c9RespErrs = (false, 3) := by
  refine ⟨?_, ?_, ?_⟩
  · refine C9_poll_loop_behaviour.1 c9RespReady 5 (by omega) (by decide) ?_
      (by decide)
    intro j hj h
    have : j < 3 := by omega
    interval_cases j <;> exact absurd h.1 (by decide)
  · refine C9_poll_loop_behaviour.2.1 c9RespFailed 6 (by omega) (by decide) ?_
      (by decide)
    intro j hj h
    have : j < 4 := by omega
    interval_cases j <;>
      first
      | exact absurd h.1 (by decide)
      | exact absurd h.2.1 (by decide)
  · exact C9_poll_loop_behaviour.2.2 c9RespErrs rfl rfl rfl

end G2Monitor
